import Mathlib

/-!
Verification of the serial-mate transport manager and RTT software decoder.

The Go sources are embedded shallowly:

* `src/pkg/jlink/jlink.go` — the soft-RTT ring-buffer decoder (`readSoftRTT`),
  the driver loader (`NewJLinkWrapper`), `WriteRTT` and `ReinitSoftRTT`.
  Target memory is modelled as a total function `mem : Nat → Nat` (each byte is
  taken mod 256 when read); `apiReadMem` failures are outside the properties
  considered here, so reads always succeed.  Every memory read the decoder
  performs is recorded as a `MemOp` so that "no read of the data region"
  is expressible.  Go `uint32` arithmetic wraps modulo `u32Mod = 2^32`, which
  the embedding makes explicit wherever a sum can exceed it.  The write-back
  of the advanced read offset (`apiWriteMem`) is modelled by the `newRdOff`
  field of a successful poll result.
* `src/app.go` / the JLink-enabled variant of the same file — the transport
  manager (`OpenSerial`, `OpenTcpClient`, `OpenTcpServer`, `OpenUdp`,
  `OpenJLink`, `Close`, `SendData`) and the UDP read loop's remote-adoption
  step.  External effects (opening ports, dialing, resolving addresses) are
  oracles passed as function arguments returning `Except`; write errors of
  `SendData` are abstracted away, only the destination is tracked.
-/

namespace SerialMate

/-! ## Soft RTT decoder (src/pkg/jlink/jlink.go) -/

/-- `maxRTTReadSize` caps a single RTT read (64 KB), mirroring the Go constant. -/
def maxRTTReadSize : Nat := 64 * 1024

/-- Modulus of Go `uint32` arithmetic. -/
def u32Mod : Nat := 4294967296

/-- Little-endian 32-bit read at `addr`, as done by `apiReadMem` into a `uint32`. -/
def readU32LE (mem : Nat → Nat) (addr : Nat) : Nat :=
  mem addr % 256 + (mem (addr + 1) % 256) * 256 +
    (mem (addr + 2) % 256) * 65536 + (mem (addr + 3) % 256) * 16777216

/-- Successive bytes read from target memory, as `apiReadMem` into a byte buffer. -/
def readBytes (mem : Nat → Nat) : Nat → Nat → List Nat
  | _, 0 => []
  | addr, n + 1 => mem addr % 256 :: readBytes mem (addr + 1) n

/-- One memory-read operation performed through `apiReadMem`: start address and length. -/
structure MemOp where
  addr : Nat
  len : Nat
deriving DecidableEq, Repr

/-- Outcome of one `readSoftRTT` poll: no data, corruption (offsets out of
bounds), or data together with the read offset written back to the target. -/
inductive PollResult where
  | noData
  | corrupt
  | ok (data : List Nat) (newRdOff : Nat)
deriving DecidableEq, Repr

/-- Data returned by a successful poll. -/
def pollData : PollResult → Option (List Nat)
  | .ok d _ => some d
  | _ => none

/-- Length of the data returned by a successful poll. -/
def pollDataLength : PollResult → Option Nat
  | .ok d _ => some d.length
  | _ => none

/-- Read offset written back by a successful poll. -/
def pollNewRdOff : PollResult → Option Nat
  | .ok _ n => some n
  | _ => none

/-- Core of `readSoftRTT` after the two live offsets have been fetched:
bounds validation, the contiguous and the wrapped read (with the 64 KB cap),
and the advanced read offset.  Returned alongside are the data-region reads. -/
def pollCore (bufBase bufSize wrOff rdOff : Nat) (mem : Nat → Nat) :
    PollResult × List MemOp :=
  if bufSize ≤ wrOff ∨ bufSize ≤ rdOff then
    (.corrupt, [])
  else if wrOff = rdOff then
    (.noData, [])
  else if rdOff < wrOff then
    let readLen := wrOff - rdOff
    let readLen := if maxRTTReadSize < readLen then maxRTTReadSize else readLen
    (.ok (readBytes mem (bufBase + rdOff) readLen) ((rdOff + readLen) % u32Mod),
      [⟨bufBase + rdOff, readLen⟩])
  else
    let len1 := bufSize - rdOff
    let len2 := wrOff
    let totalLen := len1 + len2
    let lens :=
      if maxRTTReadSize < totalLen then
        if maxRTTReadSize < len1 then (maxRTTReadSize, 0)
        else (len1, maxRTTReadSize - len1)
      else (len1, len2)
    let data1 := if 0 < lens.1 then readBytes mem (bufBase + rdOff) lens.1 else []
    let data2 := if 0 < lens.2 then readBytes mem bufBase lens.2 else []
    let ops1 : List MemOp := if 0 < lens.1 then [⟨bufBase + rdOff, lens.1⟩] else []
    let ops2 : List MemOp := if 0 < lens.2 then [⟨bufBase, lens.2⟩] else []
    (.ok (data1 ++ data2) (((rdOff + lens.1 + lens.2) % u32Mod) % bufSize),
      ops1 ++ ops2)

/-- `readSoftRTT`: fetches the live write and read offsets from the control
block (at header offsets 24+12 and 24+16), then runs the poll core.  `bufBase`
and `bufSize` come from the cached up-buffer descriptor. -/
def readSoftRTT (rttControlBlk bufBase bufSize : Nat) (mem : Nat → Nat) :
    PollResult × List MemOp :=
  if rttControlBlk = 0 then (.noData, [])
  else
    let wrOffAddr := rttControlBlk + 24 + 12
    let rdOffAddr := rttControlBlk + 24 + 16
    let res := pollCore bufBase bufSize (readU32LE mem wrOffAddr) (readU32LE mem rdOffAddr) mem
    (res.1, ⟨wrOffAddr, 4⟩ :: ⟨rdOffAddr, 4⟩ :: res.2)

/-- Pending length of the ring region between the two offsets, as induced by
`readSoftRTT`'s branching (contiguous or wrapped). -/
def pendingLen (wrOff rdOff bufSize : Nat) : Nat :=
  if wrOff = rdOff then 0
  else if rdOff < wrOff then wrOff - rdOff
  else bufSize - rdOff + wrOff

theorem readBytes_length (mem : Nat → Nat) : ∀ addr n, (readBytes mem addr n).length = n := by
  intro addr n
  induction n generalizing addr with
  | zero => rfl
  | succ k ih => simp [readBytes, ih]

theorem readU32LE_lt (mem : Nat → Nat) (addr : Nat) : readU32LE mem addr < u32Mod := by
  have h0 := Nat.mod_lt (mem addr) (show 0 < 256 by decide)
  have h1 := Nat.mod_lt (mem (addr + 1)) (show 0 < 256 by decide)
  have h2 := Nat.mod_lt (mem (addr + 2)) (show 0 < 256 by decide)
  have h3 := Nat.mod_lt (mem (addr + 3)) (show 0 < 256 by decide)
  unfold readU32LE u32Mod
  omega

theorem readSoftRTT_of_ne_zero (cb bufBase bufSize : Nat) (mem : Nat → Nat)
    (hcb : cb ≠ 0) :
    readSoftRTT cb bufBase bufSize mem =
      ((pollCore bufBase bufSize (readU32LE mem (cb + 24 + 12))
          (readU32LE mem (cb + 24 + 16)) mem).1,
        ⟨cb + 24 + 12, 4⟩ :: ⟨cb + 24 + 16, 4⟩ ::
          (pollCore bufBase bufSize (readU32LE mem (cb + 24 + 12))
            (readU32LE mem (cb + 24 + 16)) mem).2) := by
  simp [readSoftRTT, hcb]

theorem pollCore_corrupt (bufBase bufSize wrOff rdOff : Nat) (mem : Nat → Nat)
    (hbad : bufSize ≤ wrOff ∨ bufSize ≤ rdOff) :
    pollCore bufBase bufSize wrOff rdOff mem = (.corrupt, []) := by
  simp [pollCore, hbad]

theorem pollCore_contiguous (bufBase bufSize wrOff rdOff : Nat) (mem : Nat → Nat)
    (hw : wrOff < bufSize) (hlt : rdOff < wrOff) :
    pollCore bufBase bufSize wrOff rdOff mem =
      (.ok (readBytes mem (bufBase + rdOff)
            (if maxRTTReadSize < wrOff - rdOff then maxRTTReadSize else wrOff - rdOff))
          ((rdOff + (if maxRTTReadSize < wrOff - rdOff then maxRTTReadSize else wrOff - rdOff))
            % u32Mod),
        [⟨bufBase + rdOff,
          if maxRTTReadSize < wrOff - rdOff then maxRTTReadSize else wrOff - rdOff⟩]) := by
  have hnbad : ¬ (bufSize ≤ wrOff ∨ bufSize ≤ rdOff) := by omega
  have hne : wrOff ≠ rdOff := by omega
  simp only [pollCore, if_neg hnbad, if_neg hne, if_pos hlt]

theorem pollCore_wrapped (bufBase bufSize wrOff rdOff : Nat) (mem : Nat → Nat)
    (hw : wrOff < bufSize) (hr : rdOff < bufSize) (hgt : wrOff < rdOff) :
    pollCore bufBase bufSize wrOff rdOff mem =
      (let len1 := bufSize - rdOff
       let len2 := wrOff
       let lens :=
         if maxRTTReadSize < len1 + len2 then
           if maxRTTReadSize < len1 then (maxRTTReadSize, 0)
           else (len1, maxRTTReadSize - len1)
         else (len1, len2)
       (.ok ((if 0 < lens.1 then readBytes mem (bufBase + rdOff) lens.1 else []) ++
             (if 0 < lens.2 then readBytes mem bufBase lens.2 else []))
           (((rdOff + lens.1 + lens.2) % u32Mod) % bufSize),
        (if 0 < lens.1 then [(⟨bufBase + rdOff, lens.1⟩ : MemOp)] else []) ++
          (if 0 < lens.2 then [(⟨bufBase, lens.2⟩ : MemOp)] else []))) := by
  have hnbad : ¬ (bufSize ≤ wrOff ∨ bufSize ≤ rdOff) := by omega
  have hne : wrOff ≠ rdOff := by omega
  have hnlt : ¬ rdOff < wrOff := by omega
  simp only [pollCore, if_neg hnbad, if_neg hne, if_neg hnlt]

/-- C1: when either live offset is at least the buffer size, `readSoftRTT`
returns the corruption error, and the only memory reads performed are the two
4-byte offset fields of the control block — no byte of the data region
`bufBase .. bufBase+bufSize` is read. -/
theorem poll_corrupt_reads_only_offsets (cb bufBase bufSize : Nat) (mem : Nat → Nat)
    (hcb : cb ≠ 0)
    (hbad : bufSize ≤ readU32LE mem (cb + 24 + 12) ∨ bufSize ≤ readU32LE mem (cb + 24 + 16)) :
    readSoftRTT cb bufBase bufSize mem =
      (.corrupt, [⟨cb + 24 + 12, 4⟩, ⟨cb + 24 + 16, 4⟩]) := by
  rw [readSoftRTT_of_ne_zero cb bufBase bufSize mem hcb,
    pollCore_corrupt _ _ _ _ _ hbad]

/-- Witness for C1: a concrete corrupted state (all memory bytes 255, so both
offsets read as 4294967295, far beyond the 16-byte buffer). -/
theorem poll_corrupt_reads_only_offsets_witness :
    readSoftRTT 100 1000 16 (fun _ => 255) =
      (.corrupt, [⟨136, 4⟩, ⟨140, 4⟩]) :=
  poll_corrupt_reads_only_offsets 100 1000 16 (fun _ => 255) (by decide)
    (Or.inl (by decide))

theorem pollCore_writeback_in_bounds (bufBase bufSize wrOff rdOff : Nat) (mem : Nat → Nat)
    (hw : wrOff < bufSize) (hr : rdOff < bufSize) (hne : wrOff ≠ rdOff)
    (hw32 : wrOff < u32Mod) :
    ∃ data newRd, (pollCore bufBase bufSize wrOff rdOff mem).1 = .ok data newRd ∧
      newRd < bufSize ∧ (rdOff < wrOff → newRd ≤ wrOff) := by
  by_cases hlt : rdOff < wrOff
  · rw [pollCore_contiguous bufBase bufSize wrOff rdOff mem hw hlt]
    have hRL : (if maxRTTReadSize < wrOff - rdOff then maxRTTReadSize else wrOff - rdOff)
        ≤ wrOff - rdOff := by split <;> omega
    have hmod : (rdOff + (if maxRTTReadSize < wrOff - rdOff then maxRTTReadSize
          else wrOff - rdOff)) % u32Mod
        = rdOff + (if maxRTTReadSize < wrOff - rdOff then maxRTTReadSize
          else wrOff - rdOff) :=
      Nat.mod_eq_of_lt (by omega)
    exact ⟨_, _, rfl, by omega, fun _ => by omega⟩
  · have hgt : wrOff < rdOff := by omega
    rw [pollCore_wrapped bufBase bufSize wrOff rdOff mem hw hr hgt]
    have hbpos : 0 < bufSize := by omega
    exact ⟨_, _, rfl, Nat.mod_lt _ hbpos, fun h => absurd h hlt⟩

/-- C10: when validation passes (both live offsets strictly below the buffer
size) and there is pending data, `readSoftRTT` succeeds and the read offset it
writes back is again strictly below the buffer size; in the contiguous case
the advanced offset never exceeds the live write offset.  The host can thus
never corrupt its own read offset. -/
theorem poll_writeback_in_bounds (cb bufBase bufSize : Nat) (mem : Nat → Nat)
    (hcb : cb ≠ 0)
    (hw : readU32LE mem (cb + 24 + 12) < bufSize)
    (hr : readU32LE mem (cb + 24 + 16) < bufSize)
    (hne : readU32LE mem (cb + 24 + 12) ≠ readU32LE mem (cb + 24 + 16)) :
    ∃ data newRd,
      (readSoftRTT cb bufBase bufSize mem).1 = .ok data newRd ∧
        newRd < bufSize ∧
        (readU32LE mem (cb + 24 + 16) < readU32LE mem (cb + 24 + 12) →
          newRd ≤ readU32LE mem (cb + 24 + 12)) := by
  rw [readSoftRTT_of_ne_zero cb bufBase bufSize mem hcb]
  exact pollCore_writeback_in_bounds bufBase bufSize _ _ mem hw hr hne
    (readU32LE_lt mem _)

/-- Concrete memory for the C10 witness: write offset 5, read offset 2. -/
def c10mem : Nat → Nat := fun a =>
  if a = 136 then 5 else if a = 140 then 2 else 0

/-- Witness for C10: a 16-byte buffer with write offset 5 and read offset 2. -/
theorem poll_writeback_in_bounds_witness :
    ∃ data newRd,
      (readSoftRTT 100 1000 16 c10mem).1 = .ok data newRd ∧
        newRd < 16 ∧
        (readU32LE c10mem (100 + 24 + 16) < readU32LE c10mem (100 + 24 + 12) →
          newRd ≤ readU32LE c10mem (100 + 24 + 12)) :=
  poll_writeback_in_bounds 100 1000 16 c10mem (by decide) (by decide) (by decide)
    (by decide)

theorem readBytes_three (mem : Nat → Nat) (a : Nat) :
    readBytes mem a 3 = [mem a % 256, mem (a + 1) % 256, mem (a + 2) % 256] := rfl

theorem readBytes_two (mem : Nat → Nat) (a : Nat) :
    readBytes mem a 2 = [mem a % 256, mem (a + 1) % 256] := rfl

/-- C3 (amended): ring wraparound correctness, for buffer sizes
`5 < S ≤ 2^32 - 3` (for larger `S` the `uint32` sum `rdOff+len1+len2` wraps
and the written-back offset is wrong, see the counterexample): with read
offset `S-3`, write offset `2`, tail bytes `A B C` and head bytes `D E`, the
poll returns exactly the five bytes "ABCDE" and writes back read offset 2. -/
theorem poll_wraparound_abcde (S bufBase cb : Nat) (mem : Nat → Nat)
    (hcb : cb ≠ 0) (hS : 5 < S) (hSmax : S ≤ 4294967293)
    (hwOff : readU32LE mem (cb + 24 + 12) = 2)
    (hrOff : readU32LE mem (cb + 24 + 16) = S - 3)
    (hA : mem (bufBase + (S - 3)) = 65) (hB : mem (bufBase + (S - 2)) = 66)
    (hC : mem (bufBase + (S - 1)) = 67) (hD : mem bufBase = 68)
    (hE : mem (bufBase + 1) = 69) :
    pollData (readSoftRTT cb bufBase S mem).1 = some [65, 66, 67, 68, 69] ∧
      pollNewRdOff (readSoftRTT cb bufBase S mem).1 = some 2 := by
  rw [readSoftRTT_of_ne_zero cb bufBase S mem hcb, hwOff, hrOff]
  rw [pollCore_wrapped bufBase S 2 (S - 3) mem (by omega) (by omega) (by omega)]
  have h1 : S - (S - 3) = 3 := by omega
  simp only [h1]
  have hcap : ¬ maxRTTReadSize < 3 + 2 := by decide
  simp only [if_neg hcap]
  have h03 : (0 : Nat) < 3 := by decide
  have h02 : (0 : Nat) < 2 := by decide
  simp only [if_pos h03, if_pos h02]
  rw [readBytes_three, readBytes_two]
  have e1 : bufBase + (S - 3) + 1 = bufBase + (S - 2) := by omega
  have e2 : bufBase + (S - 3) + 2 = bufBase + (S - 1) := by omega
  rw [e1, e2, hA, hB, hC, hD, hE]
  have e3 : S - 3 + 3 + 2 = S + 2 := by omega
  rw [e3]
  have hu : u32Mod = 4294967296 := rfl
  have e4 : (S + 2) % u32Mod = S + 2 := Nat.mod_eq_of_lt (by omega)
  rw [e4, Nat.add_mod_left]
  have e5 : 2 % S = 2 := Nat.mod_eq_of_lt (by omega)
  rw [e5]
  exact ⟨rfl, rfl⟩

/-- Concrete memory for the C3 witness: control block at 100, buffer at 1000,
size 8, read offset 5, write offset 2, bytes A B C at the tail and D E at the
head. -/
def c3wmem : Nat → Nat := fun a =>
  if a = 136 then 2
  else if a = 140 then 5
  else if a = 1005 then 65
  else if a = 1006 then 66
  else if a = 1007 then 67
  else if a = 1000 then 68
  else if a = 1001 then 69
  else 0

/-- Witness for C3: size 8 instance of the amended wraparound theorem. -/
theorem poll_wraparound_abcde_witness :
    pollData (readSoftRTT 100 1000 8 c3wmem).1 = some [65, 66, 67, 68, 69] ∧
      pollNewRdOff (readSoftRTT 100 1000 8 c3wmem).1 = some 2 :=
  poll_wraparound_abcde 8 1000 100 c3wmem (by decide) (by decide) (by decide)
    (by decide) (by decide) (by decide) (by decide) (by decide) (by decide)
    (by decide)

/-- Concrete memory for the C3 counterexample: size `2^32 - 1` with read
offset `2^32 - 4`, write offset 2, the tail bytes A B C and head bytes D E. -/
def c3smem : Nat → Nat := fun a =>
  if a = 136 then 2
  else if a = 140 then 252
  else if a = 141 then 255
  else if a = 142 then 255
  else if a = 143 then 255
  else if a = 4294968292 then 65
  else if a = 4294968293 then 66
  else if a = 4294968294 then 67
  else if a = 1000 then 68
  else if a = 1001 then 69
  else 0

/-- Counterexample to C3 as stated: at buffer size `S = 2^32 - 1 > 5` the poll
returns "ABCDE" but, because `rdOff+len1+len2` is a `uint32` sum, the
written-back read offset is 1, not 2. -/
theorem poll_wraparound_abcde_counterexample :
    5 < 4294967295 ∧
      readU32LE c3smem (100 + 24 + 16) = 4294967295 - 3 ∧
      pollData (readSoftRTT 100 1000 4294967295 c3smem).1 = some [65, 66, 67, 68, 69] ∧
      pollNewRdOff (readSoftRTT 100 1000 4294967295 c3smem).1 = some 1 ∧
      (1 : Nat) ≠ 2 := by
  refine ⟨by decide, by decide, ?_, ?_, by decide⟩ <;> rfl

theorem pollCore_capped (bufBase bufSize wrOff rdOff : Nat) (mem : Nat → Nat)
    (hsz : bufSize + maxRTTReadSize ≤ u32Mod)
    (hw : wrOff < bufSize) (hr : rdOff < bufSize)
    (hpend : maxRTTReadSize < pendingLen wrOff rdOff bufSize) :
    pollDataLength (pollCore bufBase bufSize wrOff rdOff mem).1 = some maxRTTReadSize ∧
      pollNewRdOff (pollCore bufBase bufSize wrOff rdOff mem).1 =
        some ((rdOff + maxRTTReadSize) % bufSize) := by
  have hmpos : 0 < maxRTTReadSize := by decide
  have hne : wrOff ≠ rdOff := by
    intro h
    simp only [pendingLen, if_pos h] at hpend
    omega
  by_cases hlt : rdOff < wrOff
  case pos =>
    simp only [pendingLen, if_neg hne, if_pos hlt] at hpend
    rw [pollCore_contiguous bufBase bufSize wrOff rdOff mem hw hlt]
    simp only [if_pos hpend]
    have h1 : (rdOff + maxRTTReadSize) % u32Mod = rdOff + maxRTTReadSize :=
      Nat.mod_eq_of_lt (by omega)
    have h2 : (rdOff + maxRTTReadSize) % bufSize = rdOff + maxRTTReadSize :=
      Nat.mod_eq_of_lt (by omega)
    simp [pollDataLength, pollNewRdOff, readBytes_length, h1, h2]
  case neg =>
    have hgt : wrOff < rdOff := by omega
    simp only [pendingLen, if_neg hne, if_neg hlt] at hpend
    rw [pollCore_wrapped bufBase bufSize wrOff rdOff mem hw hr hgt]
    simp only [if_pos hpend]
    have hmod : (rdOff + maxRTTReadSize) % u32Mod = rdOff + maxRTTReadSize :=
      Nat.mod_eq_of_lt (by omega)
    by_cases h2 : maxRTTReadSize < bufSize - rdOff
    case pos =>
      simp only [if_pos h2]
      simp [pollDataLength, pollNewRdOff, readBytes_length, hmpos, hmod]
    case neg =>
      simp only [if_neg h2]
      have hl1pos : 0 < bufSize - rdOff := by omega
      have harith : rdOff + (bufSize - rdOff) + (maxRTTReadSize - (bufSize - rdOff))
          = rdOff + maxRTTReadSize := by omega
      by_cases h3 : 0 < maxRTTReadSize - (bufSize - rdOff)
      case pos =>
        have hlen : bufSize - rdOff + (maxRTTReadSize - (bufSize - rdOff))
            = maxRTTReadSize := by omega
        simp [pollDataLength, pollNewRdOff, readBytes_length, hl1pos, h3, hlen,
          harith, hmod]
      case neg =>
        have heq : bufSize - rdOff = maxRTTReadSize := by omega
        simp [pollDataLength, pollNewRdOff, readBytes_length, hl1pos, h3, heq,
          hmpos, hmod]

/-- C2 (amended): bounded read cap, for buffer sizes with
`bufSize + 64K ≤ 2^32` (for larger sizes the `uint32` sum `rdOff+len1+len2`
can wrap, see the counterexample): whenever both live offsets pass validation
and the computed pending length exceeds `maxRTTReadSize`, the poll returns
exactly `maxRTTReadSize` bytes and writes back a read offset advanced by
exactly `maxRTTReadSize` modulo the buffer size, in both the contiguous and
the wrapped case. -/
theorem poll_capped_read (cb bufBase bufSize : Nat) (mem : Nat → Nat)
    (hcb : cb ≠ 0)
    (hsz : bufSize + maxRTTReadSize ≤ u32Mod)
    (hw : readU32LE mem (cb + 24 + 12) < bufSize)
    (hr : readU32LE mem (cb + 24 + 16) < bufSize)
    (hpend : maxRTTReadSize <
      pendingLen (readU32LE mem (cb + 24 + 12)) (readU32LE mem (cb + 24 + 16)) bufSize) :
    pollDataLength (readSoftRTT cb bufBase bufSize mem).1 = some maxRTTReadSize ∧
      pollNewRdOff (readSoftRTT cb bufBase bufSize mem).1 =
        some ((readU32LE mem (cb + 24 + 16) + maxRTTReadSize) % bufSize) := by
  rw [readSoftRTT_of_ne_zero cb bufBase bufSize mem hcb]
  exact pollCore_capped bufBase bufSize _ _ mem hsz hw hr hpend

/-- Concrete memory for the C2 witness: write offset 69000, read offset 0. -/
def c2wmem : Nat → Nat := fun a =>
  if a = 136 then 136 else if a = 137 then 13 else if a = 138 then 1 else 0

/-- Witness for C2: buffer size 70000 with pending length 69000 > 64 KB. -/
theorem poll_capped_read_witness :
    pollDataLength (readSoftRTT 100 1000 70000 c2wmem).1 = some maxRTTReadSize ∧
      pollNewRdOff (readSoftRTT 100 1000 70000 c2wmem).1 =
        some ((readU32LE c2wmem (100 + 24 + 16) + maxRTTReadSize) % 70000) :=
  poll_capped_read 100 1000 70000 c2wmem (by decide) (by decide) (by decide)
    (by decide) (by decide)

/-- Concrete memory for the C2 counterexample: write offset `2^31`,
read offset `2^32 - 2`, buffer size `2^32 - 1`. -/
def c2cmem : Nat → Nat := fun a =>
  if a = 139 then 128
  else if a = 140 then 254
  else if a = 141 then 255
  else if a = 142 then 255
  else if a = 143 then 255
  else 0

/-- Counterexample to C2 as stated: at buffer size `2^32 - 1` the pending
length exceeds the cap and validation passes, yet the written-back read
offset is 65534, not `(rdOff + 64K) mod size = 65535`, because
`rdOff+len1+len2` wraps as a `uint32` sum. -/
theorem poll_capped_read_counterexample :
    maxRTTReadSize < pendingLen (readU32LE c2cmem (100 + 24 + 12))
        (readU32LE c2cmem (100 + 24 + 16)) 4294967295 ∧
      readU32LE c2cmem (100 + 24 + 12) < 4294967295 ∧
      readU32LE c2cmem (100 + 24 + 16) < 4294967295 ∧
      pollNewRdOff (readSoftRTT 100 1000 4294967295 c2cmem).1 = some 65534 ∧
      (readU32LE c2cmem (100 + 24 + 16) + maxRTTReadSize) % 4294967295 = 65535 ∧
      (65534 : Nat) ≠ 65535 := by
  refine ⟨by decide, by decide, by decide, ?_, by decide, by decide⟩
  rfl

/-! ## JLink wrapper loading, write path and read loop
(src/pkg/jlink/jlink.go and the JLink-enabled app file) -/

/-- Which of the eleven registered driver symbols resolved to a non-nil
function pointer.  `registerLibFunc` failures are swallowed by a `recover`,
leaving the corresponding field nil. -/
structure ResolvedSyms where
  apiOpen : Bool
  apiClose : Bool
  apiConnect : Bool
  apiTIFSelect : Bool
  apiExecCommand : Bool
  apiIsConnected : Bool
  apiReadMem : Bool
  apiWriteMem : Bool
  apiRTTStart : Bool
  apiRTTRead : Bool
  apiRTTWrite : Bool
deriving DecidableEq, Repr

/-- The wrapper state the transport manager holds: the resolved symbol set and
whether the software-RTT fallback is in use. -/
structure JLinkWrapper where
  syms : ResolvedSyms
  useSoftRTT : Bool
deriving DecidableEq, Repr

/-- `NewJLinkWrapper`: library load (the platform path candidates are
abstracted into the single oracle `loadOk`), then symbol registration, then
the core-symbol check `apiOpen == nil || apiReadMem == nil`. -/
def NewJLinkWrapper (loadOk : Bool) (syms : ResolvedSyms) :
    Except String JLinkWrapper :=
  if loadOk = false then .error "load failed"
  else if syms.apiOpen = false ∨ syms.apiReadMem = false then
    .error "RTT library loaded but missing core functions"
  else .ok { syms := syms, useSoftRTT := false }

/-- `WriteRTT`: empty input returns 0 immediately; in native mode delegates to
`apiRTTWrite` when resolved (nil pointer returns 0); in soft-RTT mode write is
not implemented and returns 0 with no error.  `nativeWrite` is the oracle for
the native call's return value. -/
def WriteRTT (jl : JLinkWrapper) (data : List Nat) (nativeWrite : List Nat → Int) :
    Int × Option String :=
  if data.length = 0 then (0, none)
  else if jl.useSoftRTT = false then
    if jl.syms.apiRTTWrite = false then (0, none)
    else (nativeWrite data, none)
  else (0, none)

/-- `ReinitSoftRTT`: refuses when not in soft-RTT mode, otherwise re-runs
`initSoftRTT` (whose outcome is the oracle `initResult`).  Defined here because
it is the recovery hook the spec names; no caller in the sources invokes it. -/
def ReinitSoftRTT (jl : JLinkWrapper) (initResult : Except String Unit) :
    Except String Unit :=
  if jl.useSoftRTT = false then .error "not using soft RTT" else initResult

/-- What one 10 ms tick of `jlinkReadLoop` does after `ReadRTT` returns. -/
inductive LoopAction where
  | stop
  | escalate (msg : String)
  | emitData (d : List Nat)
  | idle
deriving DecidableEq, Repr

/-- One tick of `jlinkReadLoop`: a nil wrapper stops the loop; a `ReadRTT`
error emits a `serial-error` event and closes the connection (`escalate`);
otherwise non-empty data is emitted. -/
def jlinkReadLoopTick (jlPresent : Bool) (readResult : Except String (List Nat)) :
    LoopAction :=
  if jlPresent = false then .stop
  else
    match readResult with
    | .error e => .escalate ("RTT Error: " ++ e)
    | .ok d => if 0 < d.length then .emitData d else .idle

/-- `jlinkReadLoop` over a stream of per-tick `ReadRTT` results: the loop
returns (stops) on `stop` and on `escalate`, and keeps polling otherwise. -/
def jlinkReadLoopRun (jlPresent : Bool) :
    List (Except String (List Nat)) → List LoopAction
  | [] => []
  | r :: rs =>
    match jlinkReadLoopTick jlPresent r with
    | .stop => [.stop]
    | .escalate m => [.escalate m]
    | a => a :: jlinkReadLoopRun jlPresent rs

/-- C6 (amended): with the library loaded, `NewJLinkWrapper` fails if and only
if the `JLINK_Open` or `JLINK_ReadMem` symbol is unresolved; absence of any of
the other nine symbols — the remaining five core ones included, not just the
optional RTT trio — never fails the load. -/
theorem newJLinkWrapper_core_check (syms : ResolvedSyms) :
    (∃ e, NewJLinkWrapper true syms = .error e) ↔
      (syms.apiOpen = false ∨ syms.apiReadMem = false) := by
  constructor
  · rintro ⟨e, he⟩
    by_contra hc
    simp only [NewJLinkWrapper, if_neg (by simp : (true : Bool) = false → False)] at he
    rw [if_neg hc] at he
    exact Except.noConfusion he
  · intro h
    exact ⟨"RTT library loaded but missing core functions",
      by simp [NewJLinkWrapper, if_pos h]⟩

/-- A symbol table in which the core symbol `JLINK_Connect` (and others) did
not resolve, while `JLINK_Open` and `JLINK_ReadMem` did. -/
def symsNoConnect : ResolvedSyms :=
  ⟨true, false, false, false, false, false, true, false, false, false, false⟩

/-- Counterexample to C6 as stated: the connect symbol (a core symbol, as are
close, select-interface, exec-command and write-mem, all absent here too) is
unresolved, yet `NewJLinkWrapper` succeeds: only open and read-mem are
checked. -/
theorem newJLinkWrapper_missing_core_ok :
    symsNoConnect.apiConnect = false ∧
      NewJLinkWrapper true symsNoConnect =
        .ok { syms := symsNoConnect, useSoftRTT := false } := by
  exact ⟨rfl, rfl⟩

/-- C8: for every byte sequence, `WriteRTT` in soft-RTT mode returns 0 bytes
written and no error; in native mode with the `JLINK_RTT_Write` symbol
resolved and a non-empty payload it delegates to the native write call. -/
theorem writeRTT_soft_zero_native_delegates (jl : JLinkWrapper)
    (nativeWrite : List Nat → Int) :
    (∀ data, jl.useSoftRTT = true → WriteRTT jl data nativeWrite = (0, none)) ∧
      (∀ data, jl.useSoftRTT = false → jl.syms.apiRTTWrite = true → data ≠ [] →
        WriteRTT jl data nativeWrite = (nativeWrite data, none)) := by
  constructor
  · intro data hsoft
    unfold WriteRTT
    rw [hsoft]
    simp
  · intro data hnat hsym hne
    unfold WriteRTT
    rw [hnat, hsym]
    simp [List.length_eq_zero, hne]

/-- Witness for C8: soft mode returns `(0, none)` on `[1, 2, 3]`; native mode
with the write symbol present delegates (here the native call reports the
payload length, 3). -/
theorem writeRTT_soft_zero_native_delegates_witness :
    WriteRTT ⟨⟨true, true, true, true, true, true, true, true, true, true, true⟩,
        true⟩ [1, 2, 3] (fun l => (l.length : Int)) = (0, none) ∧
      WriteRTT ⟨⟨true, true, true, true, true, true, true, true, true, true, true⟩,
        false⟩ [1, 2, 3] (fun l => (l.length : Int)) = (3, none) := by
  constructor
  · exact (writeRTT_soft_zero_native_delegates _ _).1 [1, 2, 3] rfl
  · have h := (writeRTT_soft_zero_native_delegates
      ⟨⟨true, true, true, true, true, true, true, true, true, true, true⟩, false⟩
      (fun l => (l.length : Int))).2 [1, 2, 3] rfl rfl (by decide)
    simpa using h

/-- C5 (amended): the read loop performs no local recovery: on the very first
`ReadRTT` error — the offset-out-of-bounds corruption error included — it
immediately emits the link-loss event and closes the connection, stopping the
loop; the remaining ticks are never polled.  `ReinitSoftRTT` exists but no
caller invokes it. -/
theorem jlinkReadLoop_escalates_immediately (e : String)
    (rest : List (Except String (List Nat))) :
    jlinkReadLoopRun true (.error e :: rest) = [.escalate ("RTT Error: " ++ e)] := by
  simp [jlinkReadLoopRun, jlinkReadLoopTick]

/-- Counterexample to C5 as stated: on the first corruption report the loop
escalates at once — emitting the link-loss event and tearing down — although
well-formed poll results follow; no retry or reinitialization is attempted
before escalation. -/
theorem jlinkReadLoop_no_retry_counterexample :
    jlinkReadLoopRun true
        [.error "RTT offset out of bounds: wrOff=4096, rdOff=4096, bufSize=1024",
          .ok [1], .ok [2]] =
      [.escalate "RTT Error: RTT offset out of bounds: wrOff=4096, rdOff=4096, bufSize=1024"] := by
  rfl

/-! ## Transport manager (the App struct of the JLink-enabled app file)

Handles (serial port, sockets) are opaque naturals; remote addresses are their
string form; every external effect is an oracle argument returning `Except`.
All methods run under the single mutex, so each is one atomic state
transition. -/

/-- `ConnectionType`: the type tag of the current connection. -/
inductive ConnectionType where
  | serial
  | tcpClient
  | tcpServer
  | udp
  | jlink
deriving DecidableEq, Repr

/-- Go `serial.Parity`. -/
inductive Parity where
  | noParity
  | oddParity
  | evenParity
  | markParity
  | spaceParity
deriving DecidableEq, Repr

/-- Go `serial.StopBits`. -/
inductive StopBits where
  | oneStopBit
  | onePointFiveStopBits
  | twoStopBits
deriving DecidableEq, Repr

/-- The parity-name switch of `OpenSerial` (default `NoParity`). -/
def parseParity : String → Parity
  | "None" => .noParity
  | "Odd" => .oddParity
  | "Even" => .evenParity
  | "Mark" => .markParity
  | "Space" => .spaceParity
  | _ => .noParity

/-- The stop-bits switch of `OpenSerial` (15 encodes 1.5; default one). -/
def parseStopBits : Nat → StopBits
  | 1 => .oneStopBit
  | 15 => .onePointFiveStopBits
  | 2 => .twoStopBits
  | _ => .oneStopBit

/-- The `serial.Mode` built by `OpenSerial`. -/
structure SerialMode where
  baudRate : Nat
  dataBits : Nat
  parity : Parity
  stopBits : StopBits
deriving DecidableEq, Repr

/-- The App connection state: type tag (`none` before the first open, as the
Go zero value), connected flag, whether an unclosed read-stop channel exists,
and the per-transport resources. -/
structure AppState where
  connType : Option ConnectionType
  isConnected : Bool
  readStopChan : Bool
  serialPort : Option Nat
  netConn : Option Nat
  netListener : Option Nat
  udpConn : Option Nat
  udpRemote : Option String
  jlinkConn : Option JLinkWrapper
deriving DecidableEq, Repr

/-- The App state at startup. -/
def initialAppState : AppState :=
  ⟨none, false, false, none, none, none, none, none, none⟩

/-- `startReadLoop`: marks the connection live and creates the stop channel
(the spawned goroutine itself only emits events). -/
def startReadLoop (a : AppState) : AppState :=
  { a with isConnected := true, readStopChan := true }

/-- `OpenSerial`: already-connected guard, parameter translation, then the
port-open oracle; on success records the port, tags the connection and starts
the read loop. -/
def OpenSerial (a : AppState) (portName : String) (baudRate dataBits stopBits : Nat)
    (parityName : String) (portOpen : String → SerialMode → Except String Nat) :
    String × AppState :=
  if a.isConnected then ("Already connected", a)
  else
    let mode : SerialMode :=
      ⟨baudRate, dataBits, parseParity parityName, parseStopBits stopBits⟩
    match portOpen portName mode with
    | .error e => ("Error: " ++ e, a)
    | .ok port =>
      ("Success", startReadLoop { a with serialPort := some port, connType := some .serial })

/-- `OpenTcpClient`: dial with a 3 s timeout (the timeout is inside the
oracle), then start the common read loop. -/
def OpenTcpClient (a : AppState) (ip port : String)
    (dialTimeout : String → Except String Nat) : String × AppState :=
  if a.isConnected then ("Already connected", a)
  else
    match dialTimeout (ip ++ ":" ++ port) with
    | .error e => ("Connect error: " ++ e, a)
    | .ok conn =>
      ("Success", startReadLoop { a with netConn := some conn, connType := some .tcpClient })

/-- `OpenTcpServer`: bind and listen, record the listener, flip connected and
create the stop channel (the acceptor goroutine runs separately). -/
def OpenTcpServer (a : AppState) (port : String)
    (listen : String → Except String Nat) : String × AppState :=
  if a.isConnected then ("Already connected", a)
  else
    match listen (":" ++ port) with
    | .error e => ("Listen error: " ++ e, a)
    | .ok l =>
      ("Success", { a with netListener := some l, connType := some .tcpServer,
                           isConnected := true, readStopChan := true })

/-- `OpenUdp`: bind the packet socket; resolve the remote endpoint only when
both remote fields are non-empty (resolution failure closes the socket and
records nothing); then record state and start the reader goroutine. -/
def OpenUdp (a : AppState) (localPort remoteIp remotePort : String)
    (listenPacket : String → Except String Nat)
    (resolveUDPAddr : String → Except String String) : String × AppState :=
  if a.isConnected then ("Already connected", a)
  else
    match listenPacket (":" ++ localPort) with
    | .error e => ("UDP Listen error: " ++ e, a)
    | .ok conn =>
      let rAddrRes : Except String (Option String) :=
        if remoteIp ≠ "" ∧ remotePort ≠ "" then
          match resolveUDPAddr (remoteIp ++ ":" ++ remotePort) with
          | .error e => .error e
          | .ok r => .ok (some r)
        else .ok none
      match rAddrRes with
      | .error e => ("Remote Addr error: " ++ e, a)
      | .ok rAddr =>
        ("Success", { a with udpConn := some conn, udpRemote := rAddr,
                             connType := some .udp, isConnected := true,
                             readStopChan := true })

/-- `OpenJLink`: load the driver (`NewJLinkWrapper`), connect the chip (the
oracle's `Bool` is whether the soft-RTT fallback was chosen; an error means
`Connect` failed and the wrapper was closed again), then record state and
start the RTT polling loop. -/
def OpenJLink (a : AppState) (chip : String) (speed : Nat) (iface : String)
    (loadOk : Bool) (syms : ResolvedSyms)
    (connect : String → Nat → String → Except String Bool) :
    String × AppState :=
  if a.isConnected then ("Already connected", a)
  else
    match NewJLinkWrapper loadOk syms with
    | .error e => (e, a)
    | .ok jl =>
      match connect chip speed iface with
      | .error e => (e, a)
      | .ok soft =>
        ("Success", { a with jlinkConn := some { jl with useSoftRTT := soft },
                             connType := some .jlink, isConnected := true,
                             readStopChan := true })

/-- The remote-adoption step of the UDP reader goroutine: the first inbound
packet's sender becomes the remote address; once set it is never replaced. -/
def udpAdoptRemote (a : AppState) (addr : String) : AppState :=
  if a.udpRemote = none then { a with udpRemote := some addr } else a

/-- Where `SendData` wrote the payload. -/
inductive SendTarget where
  | serialPort (port : Nat)
  | tcpConn (conn : Nat)
  | jlinkRtt
  | udpTo (conn : Nat) (remote : String)
deriving DecidableEq, Repr

/-- `SendData`: not-connected guard, then a switch on the connection type.
Write errors of the underlying handles are abstracted away; the returned
target records the destination of the write. -/
def SendData (a : AppState) : String × Option SendTarget :=
  if a.isConnected = false then ("Error: Not connected", none)
  else
    match a.connType with
    | some .serial =>
      match a.serialPort with
      | some p => ("Sent", some (.serialPort p))
      | none => ("Sent", none)
    | some .jlink =>
      match a.jlinkConn with
      | some _ => ("Sent", some .jlinkRtt)
      | none => ("Sent", none)
    | some .tcpClient =>
      match a.netConn with
      | some c => ("Sent", some (.tcpConn c))
      | none => ("Sent", none)
    | some .tcpServer =>
      match a.netConn with
      | some c => ("Sent", some (.tcpConn c))
      | none => ("Error: No client connected", none)
    | some .udp =>
      match a.udpConn, a.udpRemote with
      | some c, some r => ("Sent", some (.udpTo c r))
      | _, _ => ("Error: No remote address set", none)
    | none => ("Sent", none)

/-- Result of `Close`: status string, the state afterwards, and whether the
read-stop channel was closed (the stop signal to the read task). -/
structure CloseOutcome where
  result : String
  state : AppState
  stopSignalSent : Bool
deriving DecidableEq, Repr

/-- `Close`: not-connected guard; otherwise flips `isConnected` first, closes
the stop channel, then releases the resource of the current type.  Per-handle
close errors are the `Option String` oracles. -/
def Close (a : AppState)
    (serialCloseErr netCloseErr listenerCloseErr udpCloseErr : Option String) :
    CloseOutcome :=
  if a.isConnected = false then ⟨"Not connected", a, false⟩
  else
    let stopSent := a.readStopChan
    let a := { a with isConnected := false, readStopChan := false }
    let errAndState : Option String × AppState :=
      match a.connType with
      | some .serial =>
        match a.serialPort with
        | some _ => (serialCloseErr, { a with serialPort := none })
        | none => (none, a)
      | some .jlink =>
        match a.jlinkConn with
        | some _ => (none, { a with jlinkConn := none })
        | none => (none, a)
      | some .tcpClient =>
        match a.netConn with
        | some _ => (netCloseErr, { a with netConn := none })
        | none => (none, a)
      | some .tcpServer =>
        let step1 : Option String × AppState :=
          match a.netListener with
          | some _ => (listenerCloseErr, { a with netListener := none })
          | none => (none, a)
        match step1.2.netConn with
        | some _ => (step1.1, { step1.2 with netConn := none })
        | none => step1
      | some .udp =>
        match a.udpConn with
        | some _ => (udpCloseErr, { a with udpConn := none, udpRemote := none })
        | none => (none, a)
      | none => (none, a)
    match errAndState.1 with
    | some e => ⟨"Error closing: " ++ e, errAndState.2, stopSent⟩
    | none => ⟨"Success", errAndState.2, stopSent⟩

/-- C4: with a connection current, every Open variant fails with the
already-connected error and returns the state unchanged — kind, connected
flag and all handles untouched — so at most one connection is ever current. -/
theorem open_while_connected_fails (a : AppState) (h : a.isConnected = true)
    (portName : String) (baudRate dataBits stopBits : Nat) (parityName : String)
    (portOpen : String → SerialMode → Except String Nat)
    (ip port tcpPort : String) (dialTimeout listen : String → Except String Nat)
    (localPort remoteIp remotePort : String)
    (listenPacket : String → Except String Nat)
    (resolveUDPAddr : String → Except String String)
    (chip : String) (speed : Nat) (iface : String) (loadOk : Bool)
    (syms : ResolvedSyms) (connect : String → Nat → String → Except String Bool) :
    OpenSerial a portName baudRate dataBits stopBits parityName portOpen =
        ("Already connected", a) ∧
      OpenTcpClient a ip port dialTimeout = ("Already connected", a) ∧
      OpenTcpServer a tcpPort listen = ("Already connected", a) ∧
      OpenUdp a localPort remoteIp remotePort listenPacket resolveUDPAddr =
        ("Already connected", a) ∧
      OpenJLink a chip speed iface loadOk syms connect =
        ("Already connected", a) := by
  refine ⟨?_, ?_, ?_, ?_, ?_⟩ <;>
    simp [OpenSerial, OpenTcpClient, OpenTcpServer, OpenUdp, OpenJLink, h]

/-- A live serial connection, for the C4 witness. -/
def connectedSerialState : AppState :=
  { initialAppState with connType := some .serial, isConnected := true,
                         readStopChan := true, serialPort := some 3 }

/-- Witness for C4: every Open variant refused on a live serial connection. -/
theorem open_while_connected_fails_witness :
    OpenSerial connectedSerialState "COM7" 115200 8 1 "None" (fun _ _ => .ok 9) =
        ("Already connected", connectedSerialState) ∧
      OpenTcpClient connectedSerialState "127.0.0.1" "8080" (fun _ => .ok 9) =
        ("Already connected", connectedSerialState) ∧
      OpenTcpServer connectedSerialState "8080" (fun _ => .ok 9) =
        ("Already connected", connectedSerialState) ∧
      OpenUdp connectedSerialState "8080" "" "" (fun _ => .ok 9) (fun _ => .ok "r") =
        ("Already connected", connectedSerialState) ∧
      OpenJLink connectedSerialState "STM32F103C8" 4000 "SWD" true
          ⟨true, true, true, true, true, true, true, true, true, true, true⟩
          (fun _ _ _ => .ok true) =
        ("Already connected", connectedSerialState) :=
  open_while_connected_fails connectedSerialState rfl "COM7" 115200 8 1 "None"
    (fun _ _ => .ok 9) "127.0.0.1" "8080" "8080" (fun _ => .ok 9) (fun _ => .ok 9)
    "8080" "" "" (fun _ => .ok 9) (fun _ => .ok "r") "STM32F103C8" 4000 "SWD" true
    ⟨true, true, true, true, true, true, true, true, true, true, true⟩
    (fun _ _ _ => .ok true)

/-- C9: `Close` with nothing open fails with the not-connected error, changes
no field of the state, sends no stop signal and touches no handle. -/
theorem close_when_idle_noop (a : AppState) (h : a.isConnected = false)
    (serialCloseErr netCloseErr listenerCloseErr udpCloseErr : Option String) :
    Close a serialCloseErr netCloseErr listenerCloseErr udpCloseErr =
      ⟨"Not connected", a, false⟩ := by
  simp [Close, h]

/-- Witness for C9: closing the freshly started app. -/
theorem close_when_idle_noop_witness :
    Close initialAppState none none none none =
      ⟨"Not connected", initialAppState, false⟩ :=
  close_when_idle_noop initialAppState rfl none none none none

theorem udpAdoptRemote_of_some (a : AppState) (r addr : String)
    (h : a.udpRemote = some r) : udpAdoptRemote a addr = a := by
  simp [udpAdoptRemote, h]

theorem foldl_udpAdoptRemote_of_some (a : AppState) (r : String) (l : List String)
    (h : a.udpRemote = some r) : List.foldl udpAdoptRemote a l = a := by
  induction l with
  | nil => rfl
  | cons x xs ih => rw [List.foldl_cons, udpAdoptRemote_of_some a r x h]; exact ih

/-- C7: opening UDP with no remote configured and then receiving packets from
`E` first and any other senders afterwards leaves `E` as the adopted remote,
and `SendData` targets `E`; later senders never replace an adopted remote. -/
theorem udp_auto_adopt (a : AppState) (localPort : String)
    (listenPacket : String → Except String Nat)
    (resolveUDPAddr : String → Except String String)
    (conn : Nat) (E : String) (rest : List String)
    (hidle : a.isConnected = false)
    (hbind : listenPacket (":" ++ localPort) = .ok conn) :
    (List.foldl udpAdoptRemote
        (OpenUdp a localPort "" "" listenPacket resolveUDPAddr).2
        (E :: rest)).udpRemote = some E ∧
      SendData (List.foldl udpAdoptRemote
        (OpenUdp a localPort "" "" listenPacket resolveUDPAddr).2
        (E :: rest)) = ("Sent", some (.udpTo conn E)) := by
  have hopen : (OpenUdp a localPort "" "" listenPacket resolveUDPAddr).2 =
      { a with udpConn := some conn, udpRemote := none, connType := some .udp,
               isConnected := true, readStopChan := true } := by
    simp [OpenUdp, hidle, hbind]
  rw [hopen, List.foldl_cons]
  have hstep : udpAdoptRemote
      { a with udpConn := some conn, udpRemote := none, connType := some .udp,
               isConnected := true, readStopChan := true } E =
      { a with udpConn := some conn, udpRemote := some E, connType := some .udp,
               isConnected := true, readStopChan := true } := by
    simp [udpAdoptRemote]
  rw [hstep, foldl_udpAdoptRemote_of_some _ E rest rfl]
  exact ⟨rfl, rfl⟩

/-- Witness for C7: local port 8080, first sender 192.168.1.5:9000, a second
sender that is ignored. -/
theorem udp_auto_adopt_witness :
    (List.foldl udpAdoptRemote
        (OpenUdp initialAppState "8080" "" "" (fun _ => .ok 7)
          (fun _ => .error "unused")).2
        ("192.168.1.5:9000" :: ["10.0.0.1:1234"])).udpRemote =
        some "192.168.1.5:9000" ∧
      SendData (List.foldl udpAdoptRemote
        (OpenUdp initialAppState "8080" "" "" (fun _ => .ok 7)
          (fun _ => .error "unused")).2
        ("192.168.1.5:9000" :: ["10.0.0.1:1234"])) =
        ("Sent", some (.udpTo 7 "192.168.1.5:9000")) :=
  udp_auto_adopt initialAppState "8080" (fun _ => .ok 7) (fun _ => .error "unused")
    7 "192.168.1.5:9000" ["10.0.0.1:1234"] rfl rfl

end SerialMate
